import Mathlib

/-!
Shallow embedding of the matrix-manipulation demo (src/main.rs).

The program is a Bevy/egui application.  We embed its pure per-frame logic:

* `CtrlMode` with `run_mode` (the per-field display-mode functions);
* `CtrlState` / `CtrlsState` (the per-control-id state map) with
  `reset_value`, `reset_values`, `reset_modes`;
* `matrix_drag` (one drag-field cell of the matrix grid): user interaction
  with the egui `DragValue` widget is modelled by an optional edited value
  and an optional mode selection from the context menu;
* `mat4_grid` / `mat4_ui` (the sixteen matrix cells, the reset buttons,
  the theta drag and the determinant label);
* `window_ctrl` (the Controls window system, which applies the edited
  matrix to every `Transformable` entity);
* the `run_if` gating of the window systems registered in `main`;
* `keyboard_input` (the UI scale-factor keyboard shortcuts).

Machine floats (`f32` / `f64`) are modelled as real numbers; the engine's
`Transform` type and its multiplication and `from_matrix` constructor are
external to the repository and are kept abstract (parameters of
`window_ctrl`).
-/

/-- The display-mode enumeration of a control (src/main.rs lines 25-35).
`Normal` is the `#[default]` variant. -/
inductive CtrlMode
  | Normal
  | Sin
  | NegSin
  | Cos
  | NegCos
  | Tan
  | NegTan
deriving DecidableEq, Repr

/-- The list of all modes in declaration order, as produced by the derived
`EnumIter` iteration used by the context menu of `matrix_drag`. -/
def CtrlMode.allModes : List CtrlMode :=
  [CtrlMode.Normal, CtrlMode.Sin, CtrlMode.NegSin, CtrlMode.Cos,
   CtrlMode.NegCos, CtrlMode.Tan, CtrlMode.NegTan]

/-- The mode function `CtrlMode::run_mode` (src/main.rs lines 59-69), with
`f32` modelled as a real number. -/
noncomputable def CtrlMode.run_mode : CtrlMode → ℝ → ℝ
  | CtrlMode.Normal, v => v
  | CtrlMode.Sin, v => Real.sin v
  | CtrlMode.NegSin, v => Real.sin (-|v|)
  | CtrlMode.Cos, v => Real.cos v
  | CtrlMode.NegCos, v => Real.cos (-|v|)
  | CtrlMode.Tan, v => Real.tan v
  | CtrlMode.NegTan, v => Real.tan (-|v|)

/-- Per-control state `CtrlState` (src/main.rs lines 84-90). -/
structure CtrlState where
  is_changed : Bool
  mode : CtrlMode
  default_value : ℝ
  value : ℝ

/-- The `Default` instance of `CtrlState`: `is_changed = false`,
`mode = Normal`, both numeric fields zero. -/
def CtrlState.rustDefault : CtrlState :=
  ⟨false, CtrlMode.Normal, 0, 0⟩

/-- `CtrlState::reset_value` (src/main.rs lines 93-95). -/
def CtrlState.reset_value (cs : CtrlState) : CtrlState :=
  { cs with value := cs.default_value }

/-- The control-state map `CtrlsState` (a `HashMap<CtrlId, CtrlState>`,
src/main.rs line 101), modelled as a partial function from the numeric id. -/
abbrev CtrlsState := ℕ → Option CtrlState

/-- The empty map, `CtrlsState::default()`. -/
def CtrlsState.empty : CtrlsState := fun _ => none

/-- `HashMap::insert` on the model. -/
def CtrlsState.insert (id : ℕ) (cs : CtrlState) (s : CtrlsState) : CtrlsState :=
  fun j => if j = id then some cs else s j

/-- `CtrlsState::reset_modes` (src/main.rs lines 104-108): every entry's
mode is set back to the default mode. -/
def CtrlsState.reset_modes (s : CtrlsState) : CtrlsState :=
  fun j => (s j).map fun cs => { cs with mode := CtrlMode.Normal }

/-- `CtrlsState::reset_values` (src/main.rs lines 110-114): every entry's
value is set back to its `default_value`. -/
def CtrlsState.reset_values (s : CtrlsState) : CtrlsState :=
  fun j => (s j).map CtrlState.reset_value

/-- The mode a `matrix_drag` call on `id` runs under: the stored mode when
the id is present, otherwise the default mode of the freshly inserted entry. -/
def CtrlsState.mode_of (s : CtrlsState) (id : ℕ) : CtrlMode :=
  match s id with
  | some cs => cs.mode
  | none => CtrlMode.Normal

/-- The `default_value` field an entry for `id` carries after a
`matrix_drag` call that supplied `d` as the cell's default. -/
def CtrlsState.default_of (s : CtrlsState) (id : ℕ) (d : ℝ) : ℝ :=
  match s id with
  | some cs => cs.default_value
  | none => d

/-- One matrix drag-field cell, `EguiExtras::matrix_drag` for `Ui`
(src/main.rs lines 300-352).  `edit = some v` models the user editing the
`DragValue` to `v` this frame (`handle.changed()`); `mode_click = some m`
models the user picking mode `m` in the context menu.  The returned real
number is the value written through the `sync_value` out-pointer (the bound
matrix component). -/
noncomputable def matrix_drag (id : ℕ) (s : CtrlsState) (default_value : ℝ)
    (edit : Option ℝ) (mode_click : Option CtrlMode) : CtrlsState × ℝ :=
  let s1 : CtrlsState :=
    if (s id).isSome then s
    else CtrlsState.insert id ⟨false, CtrlMode.Normal, default_value, default_value⟩ s
  let cs0 : CtrlState :=
    (s1 id).getD ⟨false, CtrlMode.Normal, default_value, default_value⟩
  let cs1 : CtrlState :=
    match edit with
    | some v => { cs0 with value := v, is_changed := true }
    | none => cs0
  let cs2 : CtrlState :=
    if cs1.is_changed then
      { cs1 with value := cs1.mode.run_mode cs1.value, is_changed := false }
    else cs1
  let cs3 : CtrlState :=
    match mode_click with
    | some m => { cs2 with mode := m }
    | none => cs2
  (CtrlsState.insert id cs3 s1, cs3.value)

/-- A four-component vector of reals, modelling `glam`'s `Vec4`. -/
structure Vec4R where
  x : ℝ
  y : ℝ
  z : ℝ
  w : ℝ

/-- A 4x4 matrix of reals, modelling `glam`'s column-major `Mat4`:
`x_axis` .. `w_axis` are the four columns. -/
structure Mat4R where
  x_axis : Vec4R
  y_axis : Vec4R
  z_axis : Vec4R
  w_axis : Vec4R

/-- The identity matrix, `Mat4::default()` / `Mat4::IDENTITY`. -/
def Mat4R.identity : Mat4R :=
  ⟨⟨1, 0, 0, 0⟩, ⟨0, 1, 0, 0⟩, ⟨0, 0, 1, 0⟩, ⟨0, 0, 0, 1⟩⟩

/-- Modelled from the spec: the determinant the Matrix Info label displays
(src/main.rs line 433 calls `Mat4::determinant` of the `glam` math library,
which is outside this repository).  It is the standard cofactor expansion
along the first axis, computed over all sixteen components, in exact real
arithmetic. -/
def Mat4R.determinant (mm : Mat4R) : ℝ :=
  let m00 := mm.x_axis.x
  let m01 := mm.x_axis.y
  let m02 := mm.x_axis.z
  let m03 := mm.x_axis.w
  let m10 := mm.y_axis.x
  let m11 := mm.y_axis.y
  let m12 := mm.y_axis.z
  let m13 := mm.y_axis.w
  let m20 := mm.z_axis.x
  let m21 := mm.z_axis.y
  let m22 := mm.z_axis.z
  let m23 := mm.z_axis.w
  let m30 := mm.w_axis.x
  let m31 := mm.w_axis.y
  let m32 := mm.w_axis.z
  let m33 := mm.w_axis.w
  let a2323 := m22 * m33 - m23 * m32
  let a1323 := m21 * m33 - m23 * m31
  let a1223 := m21 * m32 - m22 * m31
  let a0323 := m20 * m33 - m23 * m30
  let a0223 := m20 * m32 - m22 * m30
  let a0123 := m20 * m31 - m21 * m30
  m00 * (m11 * a2323 - m12 * a1323 + m13 * a1223)
    - m01 * (m10 * a2323 - m12 * a0323 + m13 * a0223)
    + m02 * (m10 * a1323 - m11 * a0323 + m13 * a0123)
    - m03 * (m10 * a1223 - m11 * a0223 + m12 * a0123)

/-- The mathematical matrix a `Mat4R` denotes: entry `(r, c)` is component
`r` of column `c` (the axes are the columns). -/
def Mat4R.toMatrix (m : Mat4R) : Matrix (Fin 4) (Fin 4) ℝ :=
  !![m.x_axis.x, m.y_axis.x, m.z_axis.x, m.w_axis.x;
     m.x_axis.y, m.y_axis.y, m.z_axis.y, m.w_axis.y;
     m.x_axis.z, m.y_axis.z, m.z_axis.z, m.w_axis.z;
     m.x_axis.w, m.y_axis.w, m.z_axis.w, m.w_axis.w]

/-- The default value supplied to `matrix_drag` for cell `i` of the grid in
`mat4_ui` (src/main.rs lines 369-393): `1.0` for ids 0, 5, 10, 15 and `0.`
for every other id. -/
def cellDefault (i : Fin 16) : ℝ :=
  match i.val with
  | 0 => 1
  | 5 => 1
  | 10 => 1
  | 15 => 1
  | _ => 0

/-- The matrix component cell `i` of the grid is bound to (the `&mut`
passed as `sync_value` in src/main.rs lines 369-393), as a setter. -/
def cellWrite (i : Fin 16) (m : Mat4R) (v : ℝ) : Mat4R :=
  match i.val with
  | 0 => { m with x_axis.x := v }
  | 1 => { m with x_axis.y := v }
  | 2 => { m with x_axis.z := v }
  | 3 => { m with w_axis.x := v }
  | 4 => { m with y_axis.x := v }
  | 5 => { m with y_axis.y := v }
  | 6 => { m with y_axis.z := v }
  | 7 => { m with w_axis.y := v }
  | 8 => { m with z_axis.x := v }
  | 9 => { m with z_axis.y := v }
  | 10 => { m with z_axis.z := v }
  | 11 => { m with w_axis.z := v }
  | 12 => { m with x_axis.w := v }
  | 13 => { m with y_axis.w := v }
  | 14 => { m with z_axis.w := v }
  | _ => { m with w_axis.w := v }

/-- The user interactions a frame can deliver to `mat4_ui`: per-cell drag
edits and context-menu mode selections, the three reset-button clicks, and
edits of the Theta and Ambient Brightness drag fields. -/
structure UiInput where
  cell_edit : Fin 16 → Option ℝ
  cell_mode_click : Fin 16 → Option CtrlMode
  reset_all_clicked : Bool
  reset_matrix_clicked : Bool
  reset_mode_clicked : Bool
  theta_edit : Option ℝ
  ambient_edit : Option ℝ

/-- A frame with no user interaction at all. -/
def UiInput.none : UiInput :=
  ⟨fun _ => Option.none, fun _ => Option.none, false, false, false,
   Option.none, Option.none⟩

/-- The sixteen `matrix_drag` calls of the grid in `mat4_ui`
(src/main.rs lines 360-395), run left-to-right, top-to-bottom, threading
the control-state map and writing each cell's synced value into its bound
matrix component. -/
noncomputable def mat4_grid (inp : UiInput) (s : CtrlsState) (m : Mat4R) :
    CtrlsState × Mat4R :=
  (List.finRange 16).foldl
    (fun acc i =>
      let r := matrix_drag i.val acc.1 (cellDefault i)
        (inp.cell_edit i) (inp.cell_mode_click i)
      (r.1, cellWrite i acc.2 r.2))
    (s, m)

/-- The persistent UI state resource `UiState` (src/main.rs lines 119-126). -/
structure UiState where
  mat_transform : Mat4R
  ctrls_state : CtrlsState
  theta : ℝ
  ambient_brightness : ℝ

/-- `FOUR_PI` (src/main.rs line 98), the clamp bound of the Theta drag. -/
noncomputable def FOUR_PI : ℝ := Real.pi * 4

/-- Rust's `clamp(lo, hi)` on floats, on the real model. -/
noncomputable def rust_clamp (x lo hi : ℝ) : ℝ :=
  if x < lo then lo else if x > hi then hi else x

/-- The body of `mat4_ui` (src/main.rs lines 356-435): the grid of sixteen
cells, then the Reset All / Reset Matrix / Reset Mode buttons in that
order, then the Theta drag (clamped to `[-FOUR_PI, FOUR_PI]`; when it
changes, every entry whose mode is not `Normal` gets `value := theta` and
`is_changed := true`).  Returns the updated `UiState` and the edited
matrix. -/
noncomputable def mat4_ui (inp : UiInput) (ui : UiState) (value : Mat4R) :
    UiState × Mat4R :=
  let g := mat4_grid inp ui.ctrls_state value
  let s1 := if inp.reset_all_clicked then CtrlsState.empty else g.1
  let s2 := if inp.reset_matrix_clicked then CtrlsState.reset_values s1 else s1
  let s3 := if inp.reset_mode_clicked then CtrlsState.reset_modes s2 else s2
  match inp.theta_edit with
  | some t =>
      let t1 := rust_clamp t (-FOUR_PI) FOUR_PI
      let s4 : CtrlsState := fun j =>
        (s3 j).map fun cs =>
          match cs.mode with
          | CtrlMode.Normal => cs
          | _ => { cs with value := t1, is_changed := true }
      ({ ui with ctrls_state := s4, theta := t1 }, g.2)
  | none => ({ ui with ctrls_state := s3 }, g.2)

/-- The number the Matrix Info label renders after the text
`Determinant: ` (src/main.rs line 433): the determinant of the matrix as
it stands after this frame's edits. -/
noncomputable def displayed_determinant (inp : UiInput) (ui : UiState)
    (value : Mat4R) : ℝ :=
  (mat4_ui inp ui value).2.determinant

/-- The `window_ctrl` system (src/main.rs lines 513-541).  The engine's
`Transform` type, its multiplication, and `Transform::from_matrix` are
external, so they are abstract parameters.  Entities of the query are
pairs of the current `Transform` and the fixed `Transformable` base
transform.  `shown` models whether egui actually ran the window's closure
this frame (the window could be collapsed); either way, the final loop
sets every entity's transform to
`transformable.transform * Transform::from_matrix(ui_state.mat_transform)`. -/
noncomputable def window_ctrl {T : Type} (mul : T → T → T)
    (from_matrix : Mat4R → T) (inp : UiInput) (shown : Bool) (ui : UiState)
    (entities : List (T × T)) : UiState × List (T × T) :=
  let ui1 :=
    if shown then
      let r := mat4_ui inp ui ui.mat_transform
      let u := { r.1 with mat_transform := r.2 }
      { u with ambient_brightness := inp.ambient_edit.getD u.ambient_brightness }
    else ui
  (ui1, entities.map fun e => (mul e.2 (from_matrix ui1.mat_transform), e.2))

/-- The window-visibility resource `WndState` (src/main.rs lines 128-133). -/
structure WndState where
  is_open_help_wnd : Bool
  is_open_ctrl_wnd : Bool
  is_open_status_wnd : Bool

/-- The `Update` systems registered in `main` (src/main.rs lines 195-214). -/
inductive SystemId
  | window_view
  | window_help
  | window_ctrl
  | ui_status
  | keyboard_input
deriving DecidableEq, Repr

/-- The run condition each `Update` system is registered with in `main`
(src/main.rs lines 195-214): `window_help`, `window_ctrl` and `ui_status`
carry `run_if` closures testing the corresponding `WndState` boolean;
`window_view` and `keyboard_input` are unconditional. -/
def run_condition : SystemId → WndState → Bool
  | SystemId.window_view, _ => true
  | SystemId.window_help, w => w.is_open_help_wnd == true
  | SystemId.window_ctrl, w => w.is_open_ctrl_wnd == true
  | SystemId.ui_status, w => w.is_open_status_wnd == true
  | SystemId.keyboard_input, _ => true

/-- The set of `Update` systems Bevy executes in a frame whose `WndState`
is `w`: exactly those whose run condition holds. -/
def frame_systems (w : WndState) : List SystemId :=
  [SystemId.window_view, SystemId.window_help, SystemId.window_ctrl,
   SystemId.ui_status, SystemId.keyboard_input].filter
    fun sys => run_condition sys w

/-- The keys `keyboard_input` reads (src/main.rs lines 482-494):
`ctrl_pressed` models `any_pressed([ControlLeft, ControlRight])`, the other
three model the `any_just_pressed` tests for plus/equals, zero, minus. -/
structure KeyInput where
  ctrl_pressed : Bool
  plus_just_pressed : Bool
  zero_just_pressed : Bool
  minus_just_pressed : Bool

/-- The `keyboard_input` system (src/main.rs lines 482-494) as a function
on the egui scale factor: with Ctrl held, plus adds 0.2 clamped to
`[0.5, 3.5]`, zero sets 1.2, minus subtracts 0.2 clamped to `[0.5, 3.5]`,
applied in that order. -/
noncomputable def keyboard_input (keys : KeyInput) (scale_factor : ℝ) : ℝ :=
  if keys.ctrl_pressed then
    let s1 := if keys.plus_just_pressed
      then rust_clamp (scale_factor + 0.2) 0.5 3.5 else scale_factor
    let s2 := if keys.zero_just_pressed then 1.2 else s1
    let s3 := if keys.minus_just_pressed
      then rust_clamp (s2 - 0.2) 0.5 3.5 else s2
    s3
  else scale_factor

/-! ## Helper lemmas -/

/-- Cofactor expansion of a 4x4 real determinant in explicit entries. -/
theorem det_expand_four (a b c d e f g h i j k l m n o p : ℝ) :
    (!![a,b,c,d; e,f,g,h; i,j,k,l; m,n,o,p]).det =
      a * (f * (k*p - l*o) - g * (j*p - l*n) + h * (j*o - k*n))
      - b * (e * (k*p - l*o) - g * (i*p - l*m) + h * (i*o - k*m))
      + c * (e * (j*p - l*n) - f * (i*p - l*m) + h * (i*n - j*m))
      - d * (e * (j*o - k*n) - f * (i*o - k*m) + g * (i*n - j*m)) := by
  rw [Matrix.det_succ_row_zero]
  simp [Fin.sum_univ_succ, Matrix.det_fin_three, Matrix.submatrix_apply,
    Fin.succAbove, Fin.lt_def, Fin.castSucc, Fin.castAdd, Fin.castLE]
  ring

/-- `rust_clamp` lands in the clamping interval whenever it is nonempty. -/
theorem rust_clamp_mem (x lo hi : ℝ) (hlohi : lo ≤ hi) :
    lo ≤ rust_clamp x lo hi ∧ rust_clamp x lo hi ≤ hi := by
  unfold rust_clamp
  split_ifs with h1 h2 <;> constructor <;> linarith

/-- A `matrix_drag` call with no user interaction on an id not yet in the
map inserts the default entry and syncs the default value: the state. -/
theorem matrix_drag_fresh_state (id : ℕ) (s : CtrlsState) (d : ℝ)
    (h : s id = none) (j : ℕ) :
    (matrix_drag id s d Option.none Option.none).1 j
      = CtrlsState.insert id ⟨false, CtrlMode.Normal, d, d⟩ s j := by
  by_cases hj : j = id <;> simp [matrix_drag, h, CtrlsState.insert, hj]

/-- A `matrix_drag` call with no user interaction on an id not yet in the
map inserts the default entry and syncs the default value: the sync. -/
theorem matrix_drag_fresh_value (id : ℕ) (s : CtrlsState) (d : ℝ)
    (h : s id = none) :
    (matrix_drag id s d Option.none Option.none).2 = d := by
  simp [matrix_drag, h, CtrlsState.insert]

/-- Running the grid cells of an interaction-free frame over ids that are
absent from the control map (and mutually distinct) inserts each cell's
default entry and writes each cell's default into its matrix component. -/
theorem grid_fresh (L : List (Fin 16)) (s : CtrlsState) (m : Mat4R)
    (hnd : (L.map Fin.val).Nodup) (hs : ∀ i ∈ L, s i.val = none) :
    L.foldl (fun acc i =>
        let r := matrix_drag i.val acc.1 (cellDefault i)
          Option.none Option.none
        (r.1, cellWrite i acc.2 r.2)) (s, m)
      = (L.foldl (fun ss i => CtrlsState.insert i.val
            ⟨false, CtrlMode.Normal, cellDefault i, cellDefault i⟩ ss) s,
         L.foldl (fun mm i => cellWrite i mm (cellDefault i)) m) := by
  induction L generalizing s m with
  | nil => rfl
  | cons i L ih =>
      have h0 : s i.val = none := hs i (List.mem_cons_self i L)
      have hhd : i.val ∉ L.map Fin.val := (List.nodup_cons.mp hnd).1
      have hpair :
          ((matrix_drag i.val s (cellDefault i) Option.none Option.none).1,
            cellWrite i m
              (matrix_drag i.val s (cellDefault i) Option.none Option.none).2)
            = ((CtrlsState.insert i.val
                  ⟨false, CtrlMode.Normal, cellDefault i, cellDefault i⟩ s : CtrlsState),
               cellWrite i m (cellDefault i)) := by
        refine Prod.ext ?_ ?_
        · funext j
          exact matrix_drag_fresh_state i.val s (cellDefault i) h0 j
        · exact congrArg (cellWrite i m)
            (matrix_drag_fresh_value i.val s (cellDefault i) h0)
      rw [List.foldl_cons, List.foldl_cons, List.foldl_cons]
      show List.foldl _
        ((matrix_drag i.val s (cellDefault i) Option.none Option.none).1,
          cellWrite i m
            (matrix_drag i.val s (cellDefault i) Option.none Option.none).2) L = _
      rw [hpair]
      refine ih _ _ ((List.nodup_cons.mp hnd).2) ?_
      intro i2 hi2
      have hne : i2.val ≠ i.val := by
        intro hv
        exact hhd (hv ▸ List.mem_map_of_mem Fin.val hi2)
      simp [CtrlsState.insert, hne, hs i2 (List.mem_cons_of_mem i hi2)]

/-! ## Claims -/

/-- C1, counterexample: with the `Sin` display mode selected on control 0,
editing the drag field to the value pi makes `matrix_drag` store and sync
`sin pi = 0`, not pi — the stored value is not the entered value under
every display mode. -/
theorem matrix_drag_sin_edit_changes_value :
    (matrix_drag 0
        (fun id => if id = 0 then some ⟨false, CtrlMode.Sin, 0, 0⟩ else none)
        0 (some Real.pi) Option.none).2 ≠ Real.pi := by
  simp [matrix_drag, CtrlMode.run_mode, Real.sin_pi]
  exact fun hh => Real.pi_ne_zero hh.symm

/-- C1, amended: after the user edits cell `id` to `v`, the stored control
value and the synced matrix component (the returned sync value) both equal
the currently selected display mode's function applied to `v`
(`run_mode v`); in particular they equal `v` itself under the default
`Normal` mode.  The entry keeps its `default_value`, clears `is_changed`,
and carries the context-menu mode selection if one was made. -/
theorem matrix_drag_edit_applies_mode (id : ℕ) (s : CtrlsState) (d v : ℝ)
    (mc : Option CtrlMode) :
    (matrix_drag id s d (some v) mc).2
        = (CtrlsState.mode_of s id).run_mode v ∧
      (matrix_drag id s d (some v) mc).1 id
        = some ⟨false, mc.getD (CtrlsState.mode_of s id),
            CtrlsState.default_of s id d,
            (CtrlsState.mode_of s id).run_mode v⟩ := by
  rcases hs : s id with _ | cs <;> rcases mc with _ | mm <;>
    simp [matrix_drag, CtrlsState.insert, CtrlsState.mode_of,
      CtrlsState.default_of, hs]

/-- C2: the number the Matrix Info label displays after `Determinant: ` is
the determinant of the matrix as edited this frame, and the cofactor
expansion it computes over all sixteen components agrees with the
mathematical determinant of the matrix. -/
theorem determinant_label_correct (m : Mat4R) :
    Mat4R.determinant m = (Mat4R.toMatrix m).det ∧
      ∀ inp ui v, displayed_determinant inp ui v
          = Mat4R.determinant (mat4_ui inp ui v).2 := by
  constructor
  · rcases m with ⟨⟨a,b,c,d⟩, ⟨e,f,g,h⟩, ⟨i,j,k,l⟩, ⟨p,q,r,s⟩⟩
    show Mat4R.determinant ⟨⟨a,b,c,d⟩, ⟨e,f,g,h⟩, ⟨i,j,k,l⟩, ⟨p,q,r,s⟩⟩
      = (!![a, e, i, p; b, f, j, q; c, g, k, r; d, h, l, s]).det
    rw [det_expand_four]
    simp only [Mat4R.determinant]
    ring
  · intro inp ui v
    rfl

/-- C3, counterexample: the display-mode enumeration does not consist of
four functions — `CtrlMode` has seven variants, not four. -/
theorem ctrl_mode_not_four : CtrlMode.allModes.length ≠ 4 := by decide

/-- C3, amended: the display-mode enumeration consists of exactly seven
modes — `Normal` (identity), `Sin`, `NegSin`, `Cos`, `NegCos`, `Tan`,
`NegTan` — and `run_mode` applies the selected mode's function to the
field's value: the identity for `Normal`, sin/cos/tan for
`Sin`/`Cos`/`Tan`, and the same functions precomposed with negated
absolute value for the `Neg` variants. -/
theorem ctrl_mode_enumeration :
    (∀ mm : CtrlMode, mm ∈ CtrlMode.allModes) ∧
      CtrlMode.allModes.Nodup ∧
      CtrlMode.allModes.length = 7 ∧
      ∀ v : ℝ,
        CtrlMode.Normal.run_mode v = v ∧
        CtrlMode.Sin.run_mode v = Real.sin v ∧
        CtrlMode.NegSin.run_mode v = Real.sin (-|v|) ∧
        CtrlMode.Cos.run_mode v = Real.cos v ∧
        CtrlMode.NegCos.run_mode v = Real.cos (-|v|) ∧
        CtrlMode.Tan.run_mode v = Real.tan v ∧
        CtrlMode.NegTan.run_mode v = Real.tan (-|v|) := by
  refine ⟨fun mm => ?_, by decide, rfl, fun v => ?_⟩
  · cases mm <;> decide
  · exact ⟨rfl, rfl, rfl, rfl, rfl, rfl, rfl⟩

/-- C4: whenever the `window_ctrl` system runs, every `Transformable`
entity's scene-graph transform is set, that same frame, to the entity's
fixed base transform composed with the transform built from the (just
updated) user-edited matrix, and the base transform itself is untouched. -/
theorem window_ctrl_applies_matrix {T : Type} (mul : T → T → T)
    (from_matrix : Mat4R → T) (inp : UiInput) (shown : Bool) (ui : UiState)
    (entities : List (T × T)) :
    (window_ctrl mul from_matrix inp shown ui entities).2
      = entities.map fun e =>
          (mul e.2 (from_matrix
            (window_ctrl mul from_matrix inp shown ui entities).1.mat_transform),
           e.2) := rfl

/-- C6: clicking `Reset Matrix` runs `reset_values`, which sets every
present control's value to its stored `default_value` and changes nothing
else — `is_changed`, `mode` and `default_value` are untouched and the set
of ids in the map is unchanged; and in `mat4_ui` the button applies
exactly this to the frame's control-state map. -/
theorem reset_matrix_button (s : CtrlsState) :
    (∀ id, ((CtrlsState.reset_values s) id).isSome = (s id).isSome) ∧
      (∀ id cs, s id = some cs →
        (CtrlsState.reset_values s) id
          = some ⟨cs.is_changed, cs.mode, cs.default_value, cs.default_value⟩) ∧
      ∀ inp ui v, inp.reset_matrix_clicked = true →
        inp.reset_all_clicked = false → inp.reset_mode_clicked = false →
        inp.theta_edit = Option.none →
        (mat4_ui inp ui v).1.ctrls_state
          = CtrlsState.reset_values (mat4_grid inp ui.ctrls_state v).1 := by
  refine ⟨fun id => ?_, fun id cs hcs => ?_, fun inp ui v h1 h2 h3 h4 => ?_⟩
  · cases h : s id <;> simp [CtrlsState.reset_values, h]
  · simp [CtrlsState.reset_values, hcs, CtrlState.reset_value]
  · simp [mat4_ui, h1, h2, h3, h4]

/-- Witness for C6 at a concrete one-entry map: the entry's value 5 is
reset to its default 2 while `is_changed = true` and the `Sin` mode are
kept. -/
theorem reset_matrix_button_witness :
    ((fun id => if id = 0
        then some (⟨true, CtrlMode.Sin, 2, 5⟩ : CtrlState) else none) 0
        = some (⟨true, CtrlMode.Sin, 2, 5⟩ : CtrlState)) ∧
      CtrlsState.reset_values
          (fun id => if id = 0
            then some (⟨true, CtrlMode.Sin, 2, 5⟩ : CtrlState) else none) 0
        = some (⟨true, CtrlMode.Sin, 2, 2⟩ : CtrlState) :=
  ⟨rfl, (reset_matrix_button _).2.1 0 _ rfl⟩

/-- C7: in every frame, each of the help, control and status window
systems is among the executed `Update` systems exactly when its
window-visibility boolean is true, so while a boolean is false the
corresponding system never runs. -/
theorem window_visibility_gating (w : WndState) :
    (SystemId.window_help ∈ frame_systems w ↔ w.is_open_help_wnd = true) ∧
      (SystemId.window_ctrl ∈ frame_systems w ↔ w.is_open_ctrl_wnd = true) ∧
      (SystemId.ui_status ∈ frame_systems w ↔ w.is_open_status_wnd = true) := by
  rcases w with ⟨h1, h2, h3⟩
  cases h1 <;> cases h2 <;> cases h3 <;> decide

/-- C8: the defaults supplied to the sixteen matrix cells are 1 for ids
0, 5, 10 and 15 and 0 for every other id; a frame on a fresh control map
initializes every cell to its default — producing exactly the identity
matrix — and after `Reset Matrix` a cell whose stored default matches its
grid default syncs its identity-matrix entry again. -/
theorem matrix_defaults_identity :
    (∀ i : Fin 16, cellDefault i
        = if i.val = 0 ∨ i.val = 5 ∨ i.val = 10 ∨ i.val = 15 then 1 else 0) ∧
      (∀ m : Mat4R,
        (mat4_grid UiInput.none CtrlsState.empty m).2 = Mat4R.identity ∧
        ∀ i : Fin 16, (mat4_grid UiInput.none CtrlsState.empty m).1 i.val
          = some ⟨false, CtrlMode.Normal, cellDefault i, cellDefault i⟩) ∧
      ∀ s (i : Fin 16) cs, s i.val = some cs →
        cs.default_value = cellDefault i → cs.is_changed = false →
        (matrix_drag i.val (CtrlsState.reset_values s) (cellDefault i)
          Option.none Option.none).2 = cellDefault i := by
  have hgrid : ∀ m : Mat4R,
      mat4_grid UiInput.none CtrlsState.empty m
        = ((List.finRange 16).foldl (fun ss i => CtrlsState.insert i.val
              ⟨false, CtrlMode.Normal, cellDefault i, cellDefault i⟩ ss)
            CtrlsState.empty,
           (List.finRange 16).foldl (fun mm i => cellWrite i mm (cellDefault i)) m) := by
    intro m
    show (List.finRange 16).foldl (fun acc i =>
        let r := matrix_drag i.val acc.1 (cellDefault i)
          Option.none Option.none
        (r.1, cellWrite i acc.2 r.2)) (CtrlsState.empty, m) = _
    exact grid_fresh (List.finRange 16) CtrlsState.empty m (by decide)
      (fun i _ => rfl)
  refine ⟨fun i => ?_, fun m => ⟨?_, fun i => ?_⟩, fun s i cs hcs hd hch => ?_⟩
  · fin_cases i <;> simp [cellDefault]
  · rw [hgrid]
    rfl
  · rw [hgrid]
    fin_cases i <;> rfl
  · simp [matrix_drag, CtrlsState.reset_values, hcs, CtrlState.reset_value,
      hch, hd]

/-- Witness for C8 at a concrete map holding control 3 with default 0 and
current value 42: after `reset_values` the drag syncs `cellDefault 3`. -/
theorem matrix_defaults_identity_witness :
    ((fun id => if id = 3
        then some (⟨false, CtrlMode.Normal, 0, 42⟩ : CtrlState) else none) 3
        = some (⟨false, CtrlMode.Normal, 0, 42⟩ : CtrlState)) ∧
      (matrix_drag 3 (CtrlsState.reset_values
          (fun id => if id = 3
            then some (⟨false, CtrlMode.Normal, 0, 42⟩ : CtrlState) else none))
        (cellDefault 3) Option.none Option.none).2 = cellDefault 3 :=
  ⟨rfl, matrix_defaults_identity.2.2 _ 3 _ rfl rfl rfl⟩

/-- C9: the `NegCos` display mode is extensionally equal to the `Cos`
display mode: `run_mode` for `NegCos` computes `cos (-|v|)`, and since
cosine is even this equals `cos v`, the value `Cos` computes. -/
theorem neg_cos_eq_cos (v : ℝ) :
    CtrlMode.NegCos.run_mode v = Real.cos (-|v|) ∧
      Real.cos (-|v|) = Real.cos v ∧
      CtrlMode.NegCos.run_mode v = CtrlMode.Cos.run_mode v := by
  refine ⟨rfl, ?_, ?_⟩ <;>
    simp [CtrlMode.run_mode, Real.cos_neg, Real.cos_abs]

/-- C10: `keyboard_input` preserves membership of the egui scale factor in
the interval from 0.5 to 3.5: increments and decrements of 0.2 are clamped
into that interval and Ctrl+0 sets the in-range constant 1.2. -/
theorem scale_factor_invariant (keys : KeyInput) (s : ℝ)
    (hlo : 0.5 ≤ s) (hhi : s ≤ 3.5) :
    0.5 ≤ keyboard_input keys s ∧ keyboard_input keys s ≤ 3.5 := by
  rcases keys with ⟨c, p, z, mkey⟩
  cases c <;> cases p <;> cases z <;> cases mkey <;>
    simp only [keyboard_input, Bool.false_eq_true, if_true, if_false,
      ite_true, ite_false] <;>
    first
      | exact ⟨hlo, hhi⟩
      | exact rust_clamp_mem _ _ _ (by norm_num)
      | norm_num

/-- Witness for C10: from the in-range scale factor 1, a Ctrl+Plus frame
keeps the scale factor in range. -/
theorem scale_factor_invariant_witness :
    ((0.5 : ℝ) ≤ 1 ∧ (1 : ℝ) ≤ 3.5) ∧
      (0.5 ≤ keyboard_input ⟨true, true, false, false⟩ 1 ∧
        keyboard_input ⟨true, true, false, false⟩ 1 ≤ 3.5) :=
  ⟨by norm_num,
    scale_factor_invariant ⟨true, true, false, false⟩ 1 (by norm_num)
      (by norm_num)⟩
